import Mathlib

/-!
Verification of the Asymptote complexity-inference core.

This file gives a shallow embedding of the core analyzer of the Asymptote
VS Code extension (the final `extension.ts` variant together with
`analyzer/AlgorithmRegistry.ts`) and proves properties of it:

* `jsIncludes` models JavaScript `String.prototype.includes`;
* `seqTokensMatch` models `RegExp.test` for the registry's patterns, which are
  all of the shape `lit1.*lit2.*...*litn` with literal tokens;
* `registryMatch` embeds `AlgorithmRegistry.match` over the static registry;
* `Node` is the tree-sitter syntax-node interface consumed by the analyzer
  (`type`, `text`, `children`, and named fields pointing at children);
* `getStructureSignature`, `analyzeRecursion`, `multiplyComplexity`,
  `compareComplexity` and `analyzeBlock` embed the private methods of
  `AsymptoteCodeLensProvider` of the same names.

`analyzeBlock` returns `Option AnalysisResult`: `none` models the TypeError
the JavaScript code raises when a loop child has no `body` field
(`childForFieldName('body')` returns `null`, which is then dereferenced by the
recursive `analyzeBlock` call).
-/

namespace Asymptote

/-- Substring occurrence on character lists: `subOcc p s` is true iff `p`
occurs contiguously inside `s`.  The empty pattern occurs in every string. -/
def subOcc (p : List Char) : List Char → Bool
  | [] => p.isEmpty
  | c :: rest => p.isPrefixOf (c :: rest) || subOcc p rest

/-- JavaScript `s.includes(pat)`. -/
def jsIncludes (s pat : String) : Bool := subOcc pat.data s.data

/-- Consume through the first occurrence of `p` in `s`, returning the suffix
after that occurrence; `none` when `p` does not occur.  This models how a
regex of literals joined by `.*` scans its subject. -/
def dropThroughFirst (p : List Char) : List Char → Option (List Char)
  | [] => if p.isEmpty then some [] else none
  | c :: rest =>
    if p.isPrefixOf (c :: rest) then some ((c :: rest).drop p.length)
    else dropThroughFirst p rest

/-- `seqTokensMatch [t1, ..., tn] s` models `/t1.*t2.* ... .*tn/.test(s)` for
literal tokens `ti`: the tokens occur in `s` in order without overlap. -/
def seqTokensMatch : List (List Char) → List Char → Bool
  | [], _ => true
  | p :: ps, s =>
    match dropThroughFirst p s with
    | none => false
    | some r => seqTokensMatch ps r

/-- `AlgorithmFingerprint` from `AlgorithmRegistry.ts`; the regex is kept as
its list of literal tokens (the source patterns are literals joined by `.*`). -/
structure AlgorithmFingerprint where
  name : String
  complexity : String
  regexTokens : List String
deriving DecidableEq, Repr

/-- The single entry of the static registry in `AlgorithmRegistry.ts`:
`/while_statement.*compound_statement.*declaration.*if_statement/` labelled
"Binary Search Logic" with complexity `O(log N)`. -/
def binarySearchFingerprint : AlgorithmFingerprint :=
  ⟨"Binary Search Logic", "O(log N)",
    ["while_statement", "compound_statement", "declaration", "if_statement"]⟩

/-- The static registry table of `AlgorithmRegistry.ts`. -/
def registry : List AlgorithmFingerprint := [binarySearchFingerprint]

/-- `AlgorithmRegistry.match`: scan the registry in order and return the first
fingerprint whose regex accepts the signature, else `none`. -/
def registryMatch (signature : String) : Option AlgorithmFingerprint :=
  registry.find? fun algo =>
    seqTokensMatch (algo.regexTokens.map String.data) signature.data

/-- A tree-sitter syntax node as consumed by the analyzer: a `type` tag, the
source `text` slice, the ordered `children`, and named fields.  In tree-sitter
a named field designates one of the node's children, so fields are stored as
indices into `children`. -/
inductive Node where
  | mk (typ : String) (text : String) (children : List Node)
       (fields : List (String × Nat))

/-- The `type` attribute of a node. -/
def Node.typ : Node → String
  | .mk t _ _ _ => t

/-- The `text` attribute of a node. -/
def Node.text : Node → String
  | .mk _ x _ _ => x

/-- The `children` attribute of a node. -/
def Node.children : Node → List Node
  | .mk _ _ cs _ => cs

/-- The field table of a node. -/
def Node.fields : Node → List (String × Nat)
  | .mk _ _ _ fs => fs

/-- `node.childForFieldName(f)`: the child designated by field `f`, or `none`
(JavaScript `null`) when the node has no such field. -/
def Node.childForFieldName (n : Node) (f : String) : Option Node :=
  match n.fields.lookup f with
  | none => none
  | some i => n.children.get? i

mutual
/-- `getStructureSignature` from `extension.ts`: a depth-first pre-order walk
emitting `#` for identifiers and number literals and `type|` otherwise. -/
def getStructureSignature : Node → String
  | .mk t _ cs _ =>
    (if t == "identifier" || t == "number_literal" then "#" else t ++ "|")
      ++ signatureOfChildren cs

/-- Signature contribution of a child list, in order. -/
def signatureOfChildren : List Node → String
  | [] => ""
  | c :: cs => getStructureSignature c ++ signatureOfChildren cs
end

/-- The mutable state of `analyzeRecursion`'s `traverse` closure:
`callCount`, `hasDivision`, `hasSubtraction`. -/
structure RecScan where
  callCount : Nat
  hasDivision : Bool
  hasSubtraction : Bool
deriving DecidableEq, Repr

/-- The body of `traverse` applied at one node (before descending into the
children): on a `call_expression` whose `function` field's text equals the
function name, bump the count and set the division flag when the argument
text contains `/` or `>>`, else the subtraction flag when it contains `-` or
`--`. -/
def recStep (fn : String) (st : RecScan) (n : Node) : RecScan :=
  if n.typ == "call_expression" then
    match n.childForFieldName "function" with
    | some fNode =>
      if fNode.text == fn then
        let st := { st with callCount := st.callCount + 1 }
        match n.childForFieldName "arguments" with
        | some args =>
          if jsIncludes args.text "/" || jsIncludes args.text ">>" then
            { st with hasDivision := true }
          else if jsIncludes args.text "-" || jsIncludes args.text "--" then
            { st with hasSubtraction := true }
          else st
        | none => st
      else st
    | none => st
  else st

mutual
/-- `traverse` of `analyzeRecursion`: pre-order over the whole subtree,
threading the scan state. -/
def recScanNode (fn : String) (st : RecScan) : Node → RecScan
  | .mk t x cs fs => recScanList fn (recStep fn st (.mk t x cs fs)) cs

/-- `traverse` over a child list, left to right. -/
def recScanList (fn : String) (st : RecScan) : List Node → RecScan
  | [] => st
  | c :: cs => recScanList fn (recScanNode fn st c) cs
end

/-- `analyzeRecursion` from `extension.ts`: scan for self-calls, then classify:
no self-call ⇒ `none`; two or more ⇒ `O(2^N)`; division marker ⇒ `O(log N)`;
subtraction marker ⇒ `O(N)`; otherwise `O(N)`. -/
def analyzeRecursion (node : Node) (fn : String) : Option String :=
  let st := recScanNode fn ⟨0, false, false⟩ node
  if st.callCount == 0 then none
  else if 2 ≤ st.callCount then some "O(2^N)"
  else if st.hasDivision then some "O(log N)"
  else if st.hasSubtraction then some "O(N)"
  else some "O(N)"

/-- Models `.replace(/O\(|\)/g, '')`: delete every occurrence of `O(` and of
`)`, scanning left to right. -/
def stripO : List Char → List Char
  | [] => []
  | 'O' :: '(' :: rest => stripO rest
  | ')' :: rest => stripO rest
  | c :: rest => c :: stripO rest

/-- The value of a leading decimal-digit run, `none` when there is none
(JavaScript `NaN`). -/
def leadingDigitsVal (cs : List Char) : Option Nat :=
  let ds := cs.takeWhile Char.isDigit
  if ds.isEmpty then none
  else some (ds.foldl (fun a c => a * 10 + (c.toNat - '0'.toNat)) 0)

/-- Models `parseInt(s) || 1` on the segment JavaScript `split('^')[1]`
produces: `none` stands for an absent segment (`undefined`, hence `NaN`);
`parseInt` skips leading whitespace, accepts an optional sign, and reads the
leading decimal-digit run (`NaN` when there is none); `NaN`, `0` and `-0` are
falsy and fall back to `1`. -/
def jsParseIntOr1 : Option (List Char) → Int
  | none => 1
  | some cs =>
    let cs := cs.dropWhile fun c => c == ' ' || c == '\t' || c == '\n' || c == '\r'
    let signedVal : Option Int :=
      match cs with
      | '-' :: rest => (leadingDigitsVal rest).map fun v => -(v : Int)
      | '+' :: rest => (leadingDigitsVal rest).map fun v => (v : Int)
      | rest => (leadingDigitsVal rest).map fun v => (v : Int)
    match signedVal with
    | none => 1
    | some v => if v == 0 then 1 else v

/-- The segment strictly between the first and the second `^` of `s` (or up to
the end when there is only one `^`): JavaScript `s.split('^')[1]`; `none` when
`s` contains no `^`. -/
def splitCaretSecond (s : List Char) : Option (List Char) :=
  match s with
  | [] => none
  | '^' :: rest => some (rest.takeWhile (· ≠ '^'))
  | _ :: rest => splitCaretSecond rest

/-- `multiplyComplexity` from `extension.ts`. -/
def multiplyComplexity (outer inner : String) : String :=
  if inner == "O(1)" then outer
  else if outer == "O(1)" then inner
  else
    let cleanOuter := String.mk (stripO outer.data)
    let cleanInner := String.mk (stripO inner.data)
    if "N^".data.isPrefixOf cleanInner.data then
      let power := jsParseIntOr1 (splitCaretSecond cleanInner.data)
      "O(N^" ++ toString (power + 1) ++ ")"
    else if cleanInner == "N" then "O(N^2)"
    else "O(" ++ cleanOuter ++ " " ++ cleanInner ++ ")"

/-- The `score` helper inside `compareComplexity`. -/
def score (c : String) : Int :=
  if jsIncludes c "2^N" then 100
  else if jsIncludes c "N^3" then 40
  else if jsIncludes c "N^2" then 30
  else if jsIncludes c "N log N" then 20
  else if jsIncludes c "N" then 10
  else if jsIncludes c "log N" then 5
  else 1

/-- `compareComplexity` from `extension.ts`: the difference of the scores
(callers only test its sign). -/
def compareComplexity (a b : String) : Int := score a - score b

/-- `isLoop` from `extension.ts`. -/
def isLoop (n : Node) : Bool :=
  n.typ == "for_statement" || n.typ == "while_statement" ||
    n.typ == "do_statement"

/-- The `{complexity, reason}` record returned by `analyzeBlock`. -/
structure AnalysisResult where
  complexity : String
  reason : String
deriving DecidableEq, Repr

/-- A node's child list is structurally smaller than the node. -/
theorem Node.sizeOf_children_lt (n : Node) : sizeOf n.children < sizeOf n := by
  cases n with
  | mk t x cs fs => simp [Node.children]; omega

/-- A child reached through a named field is one of the node's children. -/
theorem Node.mem_of_childForFieldName {n : Node} {f : String} {b : Node}
    (h : n.childForFieldName f = some b) : b ∈ n.children := by
  unfold Node.childForFieldName at h
  cases hl : n.fields.lookup f with
  | none => rw [hl] at h; exact absurd h (by simp)
  | some i =>
    rw [hl] at h
    exact List.get?_mem h

mutual
/-- `analyzeBlock` from `extension.ts`: fingerprint match short-circuits,
then recursion classification short-circuits, then the children are folded,
loops multiplying their body's cost by `O(N)` and nested compound statements
and conditionals analyzed as blocks, keeping the maximum under
`compareComplexity`.  `none` models the null-dereference TypeError on a loop
child with no `body` field. -/
def analyzeBlock (node : Node) (fn : String) : Option AnalysisResult :=
  match registryMatch (getStructureSignature node) with
  | some algo => some ⟨algo.complexity, "Matches pattern: " ++ algo.name⟩
  | none =>
    match analyzeRecursion node fn with
    | some rc =>
      some ⟨"Recursive (" ++ rc ++ ")", "Recursive calls detected (" ++ rc ++ ")"⟩
    | none =>
      analyzeChildren fn ⟨"O(1)", "Constant time operations"⟩ node.children
termination_by sizeOf node
decreasing_by
  have := Node.sizeOf_children_lt node
  omega

/-- The `for (const child of children)` fold of `analyzeBlock`, threading the
running `{maxComplexity, reason}` accumulator. -/
def analyzeChildren (fn : String) (cur : AnalysisResult) :
    List Node → Option AnalysisResult
  | [] => some cur
  | child :: rest =>
    if isLoop child then
      match hb : child.childForFieldName "body" with
      | none => none
      | some bodyNode =>
        match analyzeBlock bodyNode fn with
        | none => none
        | some bodyResult =>
          let combined := multiplyComplexity "O(N)" bodyResult.complexity
          let cur' :=
            if 0 < compareComplexity combined cur.complexity then
              ⟨combined, "Loop (O(N)) wrapping: " ++ bodyResult.complexity⟩
            else cur
          analyzeChildren fn cur' rest
    else if child.typ == "compound_statement" || child.typ == "if_statement" then
      match analyzeBlock child fn with
      | none => none
      | some nested =>
        let cur' :=
          if 0 < compareComplexity nested.complexity cur.complexity then
            AnalysisResult.mk nested.complexity nested.reason
          else cur
        analyzeChildren fn cur' rest
    else analyzeChildren fn cur rest
termination_by kids => sizeOf kids
decreasing_by
  all_goals simp only [List.cons.sizeOf_spec]
  · have h1 := List.sizeOf_lt_of_mem (Node.mem_of_childForFieldName hb)
    have h2 := Node.sizeOf_children_lt c
    omega
  all_goals omega
end

mutual
/-- Every loop node in the tree (the node itself included) carries a `body`
field.  On such trees the analyzer never dereferences `null`. -/
def loopBodiesOk : Node → Bool
  | .mk t x cs fs =>
    (!(isLoop (.mk t x cs fs)) || ((Node.mk t x cs fs).childForFieldName "body").isSome)
      && loopBodiesOkList cs

/-- `loopBodiesOk` over a child list. -/
def loopBodiesOkList : List Node → Bool
  | [] => true
  | c :: cs => loopBodiesOk c && loopBodiesOkList cs
end

/-! ### Concrete syntax trees used as test inputs

These mirror trees the tree-sitter C++ grammar produces: anonymous token
children (keywords, punctuation) carry their text as their type, and the
`body`, `function` and `arguments` fields designate children by position. -/

/-- An anonymous token node: tree-sitter gives such nodes their own text as
their type tag. -/
def tok (t : String) : Node := .mk t t [] []

/-- An opening-brace token node. -/
def openBrace : Node := tok "\x7b"

/-- A closing-brace token node. -/
def closeBrace : Node := tok "\x7d"

/-- A `compound_statement` node with the given children. -/
def compound (cs : List Node) : Node := .mk "compound_statement" "" cs []

/-- A `for_statement` whose `body` field designates its last child. -/
def forStmt (body : Node) : Node :=
  .mk "for_statement" "" [tok "for", tok "(", tok ")", body] [("body", 3)]

/-- A `while_statement` whose `body` field designates its last child. -/
def whileStmt (body : Node) : Node :=
  .mk "while_statement" "" [tok "while", tok "(", tok ")", body] [("body", 3)]

/-- A leaf `expression_statement` with the given text. -/
def exprStmt (s : String) : Node := .mk "expression_statement" s [] []

/-- A `call_expression` with `function` and `arguments` fields. -/
def callTo (callee args : String) : Node :=
  .mk "call_expression" (callee ++ args)
    [.mk "identifier" callee [] [], .mk "argument_list" args [] []]
    [("function", 0), ("arguments", 1)]

/-- An `expression_statement` wrapping a call. -/
def callStmt (callee args : String) : Node :=
  .mk "expression_statement" (callee ++ args ++ ";") [callTo callee args] []

/-- A `declaration` leaf node. -/
def declStmt (s : String) : Node := .mk "declaration" s [] []

/-- An `if_statement` leaf node. -/
def ifStmt : Node := .mk "if_statement" "" [] []

/-- A `while` whose body is a compound with a declaration and an `if`: its
signature matches the registry's binary-search fingerprint. -/
def binWhile : Node :=
  whileStmt (compound [openBrace, declStmt "int m = (l + r) / 2;", ifStmt,
    closeBrace])

/-- A braced compound whose only statement is a `for` loop with the given
body: the building block of the nested-loop test trees. -/
def bracedFor (body : Node) : Node := compound [openBrace, forStmt body, closeBrace]

/-- Innermost loop body of the C1 counterexample: `{ sum += i; }`. -/
def c1Inner : Node := compound [openBrace, exprStmt "sum += i;", closeBrace]

/-- Middle body of the C1 counterexample: `{ for(...) { sum += i; } }`. -/
def c1Mid : Node := bracedFor c1Inner

/-- A function body whose signature matches the binary-search fingerprint
(because of `binWhile`) but which also contains a doubly nested `for` whose
compositional cost `O(N^2)` exceeds the fingerprint's `O(log N)`. -/
def c1Tree : Node := compound [openBrace, binWhile, forStmt c1Mid, closeBrace]

/-- A `while` whose compound body matches the binary-search shape and also
contains a self-call `f(n - 1)`. -/
def c2While : Node :=
  whileStmt (compound [openBrace, declStmt "int m = l;", ifStmt,
    callStmt "f" "(n - 1)", closeBrace])

/-- A body that matches the binary-search fingerprint and contains a
self-call: used to show fingerprint matching preempts recursion checks. -/
def c2Tree : Node := compound [openBrace, c2While, closeBrace]

/-- A body with a single self-call `f(n - 1)` and no fingerprint match. -/
def oneCallSub : Node := compound [openBrace, callStmt "f" "(n - 1)", closeBrace]

/-- A body with a single self-call `f(n / 2)` (division marker). -/
def oneCallDiv : Node := compound [openBrace, callStmt "f" "(n / 2)", closeBrace]

/-- A body whose signature matches the binary-search fingerprint, used as the
witness input for the fingerprint short-circuit. -/
def binWhileBlock : Node := compound [openBrace, binWhile, closeBrace]

/-- Loop body containing only a call to the unrecognized `doWork`. -/
def c4Body : Node := compound [openBrace, callStmt "doWork" "(x)", closeBrace]

/-- A `for` loop over `c4Body`, inside a braced function body. -/
def c4Tree : Node := bracedFor c4Body

/-- Loop body containing only a call to `sort`. -/
def c5Body : Node :=
  compound [openBrace, callStmt "sort" "(v.begin(), v.end())", closeBrace]

/-- A `for` loop whose body is just the `sort(...)` call. -/
def c5Tree : Node := bracedFor c5Body

/-- A `while_statement` with no `body` field, as tree-sitter yields on
badly broken input. -/
def bodylessWhile : Node := .mk "while_statement" "" [tok "while", tok "(", tok ")"] []

/-- A body whose only statement child is a loop without a `body` field. -/
def c9Tree : Node := compound [openBrace, bodylessWhile, closeBrace]

/-- A body with no children at all (malformed/empty body). -/
def emptyBody : Node := compound []

/-- An `O(1)` leaf statement block for the deep-nesting trees. -/
def c10Leaf : Node := compound [openBrace, exprStmt "total += i;", closeBrace]

/-- Three nested braced `for` loops: analyzes to `O(N^3)`. -/
def c10DeepBody : Node := bracedFor (bracedFor (bracedFor c10Leaf))

/-- One braced `for` loop: analyzes to `O(N)`. -/
def c10ShallowBody : Node := bracedFor c10Leaf

/-- A body with two sibling loops: one wrapping a three-deep nest (four loops
in total on that branch) and one wrapping a single loop (two in total). -/
def c10Tree : Node :=
  compound [openBrace, forStmt c10DeepBody, forStmt c10ShallowBody, closeBrace]

/-- Inner body used in the nested-loop witness. -/
def c8Inner : Node := compound [openBrace, exprStmt "count += 1;", closeBrace]

/-! ### Unfolding lemmas for the analyzer -/

/-- A fingerprint match makes `analyzeBlock` return at once. -/
theorem analyzeBlock_of_match {n : Node} {algo : AlgorithmFingerprint}
    (fn : String) (h : registryMatch (getStructureSignature n) = some algo) :
    analyzeBlock n fn = some ⟨algo.complexity, "Matches pattern: " ++ algo.name⟩ := by
  rw [analyzeBlock.eq_def, h]

/-- With no fingerprint match, a recursion label makes `analyzeBlock` return
the recursive result. -/
theorem analyzeBlock_of_recursion {n : Node} {fn rc : String}
    (h1 : registryMatch (getStructureSignature n) = none)
    (h2 : analyzeRecursion n fn = some rc) :
    analyzeBlock n fn =
      some ⟨"Recursive (" ++ rc ++ ")", "Recursive calls detected (" ++ rc ++ ")"⟩ := by
  rw [analyzeBlock.eq_def, h1, h2]

/-- With no fingerprint match and no recursion label, `analyzeBlock` folds
over the children. -/
theorem analyzeBlock_of_children {n : Node} {fn : String}
    (h1 : registryMatch (getStructureSignature n) = none)
    (h2 : analyzeRecursion n fn = none) :
    analyzeBlock n fn =
      analyzeChildren fn ⟨"O(1)", "Constant time operations"⟩ n.children := by
  rw [analyzeBlock.eq_def, h1, h2]

/-- An exhausted child list returns the accumulator. -/
theorem analyzeChildren_nil (fn : String) (cur : AnalysisResult) :
    analyzeChildren fn cur [] = some cur := by
  rw [analyzeChildren.eq_def]

/-- A child that is neither a loop nor a compound statement nor an
`if_statement` is ignored. -/
theorem analyzeChildren_skip (fn : String) (cur : AnalysisResult) (c : Node)
    (rest : List Node) (h1 : isLoop c = false)
    (h2 : (c.typ == "compound_statement") = false)
    (h3 : (c.typ == "if_statement") = false) :
    analyzeChildren fn cur (c :: rest) = analyzeChildren fn cur rest := by
  rw [analyzeChildren.eq_def]
  simp [h1, h2, h3]

/-- A loop child whose body analyzes to `bodyResult` folds the multiplied
cost into the accumulator when strictly greater under `compareComplexity`. -/
theorem analyzeChildren_loop (fn : String) (cur : AnalysisResult) (c : Node)
    (rest : List Node) {bodyNode : Node} {bodyResult : AnalysisResult}
    (h1 : isLoop c = true) (h2 : c.childForFieldName "body" = some bodyNode)
    (h3 : analyzeBlock bodyNode fn = some bodyResult) :
    analyzeChildren fn cur (c :: rest) =
      analyzeChildren fn
        (if 0 < compareComplexity (multiplyComplexity "O(N)" bodyResult.complexity)
              cur.complexity then
          ⟨multiplyComplexity "O(N)" bodyResult.complexity,
            "Loop (O(N)) wrapping: " ++ bodyResult.complexity⟩
        else cur) rest := by
  rw [analyzeChildren.eq_def]
  simp only [h1, if_true]
  split
  · simp_all
  · rename_i b hb
    rw [h2] at hb
    cases hb
    rw [h3]

/-- A loop child with no `body` field aborts the analysis (the JavaScript
code dereferences `null`). -/
theorem analyzeChildren_loop_noBody (fn : String) (cur : AnalysisResult)
    (c : Node) (rest : List Node) (h1 : isLoop c = true)
    (h2 : c.childForFieldName "body" = none) :
    analyzeChildren fn cur (c :: rest) = none := by
  rw [analyzeChildren.eq_def]
  simp only [h1, if_true]
  split
  · rfl
  · rename_i b hb
    rw [h2] at hb
    cases hb

/-- Concrete multiplication fact used while evaluating the analyzer. -/
theorem mul_N_1 : multiplyComplexity "O(N)" "O(1)" = "O(N)" := by decide

/-- Concrete multiplication fact used while evaluating the analyzer. -/
theorem mul_N_N : multiplyComplexity "O(N)" "O(N)" = "O(N^2)" := by decide

/-- Concrete multiplication fact used while evaluating the analyzer. -/
theorem mul_N_N2 : multiplyComplexity "O(N)" "O(N^2)" = "O(N^3)" := by decide

/-- Concrete multiplication fact used while evaluating the analyzer. -/
theorem mul_N_N3 : multiplyComplexity "O(N)" "O(N^3)" = "O(N^4)" := by decide

/-- Concrete comparison fact used while evaluating the analyzer. -/
theorem cmp_N_1 : compareComplexity "O(N)" "O(1)" = 9 := by decide

/-- Concrete comparison fact used while evaluating the analyzer. -/
theorem cmp_N2_1 : compareComplexity "O(N^2)" "O(1)" = 29 := by decide

/-- Concrete comparison fact used while evaluating the analyzer. -/
theorem cmp_N2_N : compareComplexity "O(N^2)" "O(N)" = 20 := by decide

/-- Concrete comparison fact used while evaluating the analyzer. -/
theorem cmp_N3_N2 : compareComplexity "O(N^3)" "O(N^2)" = 10 := by decide

/-- Concrete comparison fact used while evaluating the analyzer. -/
theorem cmp_N4_N3 : compareComplexity "O(N^4)" "O(N^3)" = -30 := by decide

/-- Concrete comparison fact used while evaluating the analyzer. -/
theorem cmp_N4_1 : compareComplexity "O(N^4)" "O(1)" = 9 := by decide

/-- Concrete comparison fact used while evaluating the analyzer. -/
theorem cmp_N2_N4 : compareComplexity "O(N^2)" "O(N^4)" = 20 := by decide

/-- A nested compound or `if` child analyzed to `nested` replaces the
accumulator when strictly greater under `compareComplexity`. -/
theorem analyzeChildren_nested (fn : String) (cur : AnalysisResult) (c : Node)
    (rest : List Node) {nested : AnalysisResult}
    (h1 : isLoop c = false)
    (h2 : (c.typ == "compound_statement" || c.typ == "if_statement") = true)
    (h3 : analyzeBlock c fn = some nested) :
    analyzeChildren fn cur (c :: rest) =
      analyzeChildren fn
        (if 0 < compareComplexity nested.complexity cur.complexity then
          ⟨nested.complexity, nested.reason⟩
        else cur) rest := by
  rw [analyzeChildren.eq_def]
  simp [h1, h2, h3]

/-- A child list whose members are all ignorable leaves keeps the
accumulator. -/
theorem analyzeChildren_skipAll {l : List Node} (fn : String)
    (cur : AnalysisResult)
    (h : ∀ c ∈ l, isLoop c = false ∧ (c.typ == "compound_statement") = false ∧
      (c.typ == "if_statement") = false) :
    analyzeChildren fn cur l = some cur := by
  induction l with
  | nil => exact analyzeChildren_nil fn cur
  | cons c rest ih =>
    obtain ⟨h1, h2, h3⟩ := h c (by simp)
    rw [analyzeChildren_skip fn cur c rest h1 h2 h3]
    exact ih fun d hd => h d (by simp [hd])

/-- A block with no fingerprint match, no self-calls, and only ignorable
children analyzes to the constant default. -/
theorem analyzeBlock_constantLeaf {n : Node} (fn : String)
    (h1 : registryMatch (getStructureSignature n) = none)
    (h2 : analyzeRecursion n fn = none)
    (h3 : ∀ c ∈ n.children, isLoop c = false ∧
      (c.typ == "compound_statement") = false ∧
      (c.typ == "if_statement") = false) :
    analyzeBlock n fn = some ⟨"O(1)", "Constant time operations"⟩ := by
  rw [analyzeBlock_of_children h1 h2, analyzeChildren_skipAll fn _ h3]

/-- Evaluating a braced single-`for` block: the loop's multiplied body cost
is folded against the fresh `O(1)` accumulator. -/
theorem analyzeBlock_bracedFor {body : Node} {fn : String} {br : AnalysisResult}
    (h1 : registryMatch (getStructureSignature (bracedFor body)) = none)
    (h2 : analyzeRecursion (bracedFor body) fn = none)
    (h3 : analyzeBlock body fn = some br) :
    analyzeBlock (bracedFor body) fn =
      some (if 0 < compareComplexity (multiplyComplexity "O(N)" br.complexity) "O(1)"
        then ⟨multiplyComplexity "O(N)" br.complexity,
          "Loop (O(N)) wrapping: " ++ br.complexity⟩
        else ⟨"O(1)", "Constant time operations"⟩) := by
  rw [analyzeBlock_of_children h1 h2]
  rw [show (bracedFor body).children = [openBrace, forStmt body, closeBrace] from rfl]
  rw [analyzeChildren_skip fn _ openBrace _ rfl rfl rfl]
  rw [analyzeChildren_loop fn _ (forStmt body) _ rfl rfl h3]
  rw [analyzeChildren_skip fn _ closeBrace _ rfl rfl rfl]
  rw [analyzeChildren_nil]

/-- Members of a list satisfying `loopBodiesOkList` satisfy `loopBodiesOk`. -/
theorem loopBodiesOk_of_mem {l : List Node} {c : Node}
    (h : loopBodiesOkList l = true) (hm : c ∈ l) : loopBodiesOk c = true := by
  induction l with
  | nil => cases hm
  | cons d rest ih =>
    rw [loopBodiesOkList] at h
    rcases List.mem_cons.mp hm with rfl | hr
    · exact (Bool.and_eq_true_iff.mp h).1
    · exact ih (Bool.and_eq_true_iff.mp h).2 hr

/-- `loopBodiesOk` passes to the child list. -/
theorem loopBodiesOk_children {n : Node} (h : loopBodiesOk n = true) :
    loopBodiesOkList n.children = true := by
  cases n with
  | mk t x cs fs =>
    rw [loopBodiesOk] at h
    exact (Bool.and_eq_true_iff.mp h).2

/-- A loop node satisfying `loopBodiesOk` has a `body` field. -/
theorem loopBodiesOk_body {n : Node} (h : loopBodiesOk n = true)
    (hl : isLoop n = true) : ∃ b, n.childForFieldName "body" = some b := by
  cases n with
  | mk t x cs fs =>
    rw [loopBodiesOk] at h
    have h1 := (Bool.and_eq_true_iff.mp h).1
    rw [hl] at h1
    simpa [Option.isSome_iff_exists] using h1

/-- Strong-induction core of the totality property: on trees whose loops all
have `body` fields, `analyzeBlock` and `analyzeChildren` always return a
result. -/
theorem analyzer_total : ∀ N : Nat,
    (∀ (n : Node) (fn : String), sizeOf n ≤ N → loopBodiesOk n = true →
      (analyzeBlock n fn).isSome = true) ∧
    (∀ (kids : List Node) (fn : String) (cur : AnalysisResult),
      sizeOf kids ≤ N → loopBodiesOkList kids = true →
      (analyzeChildren fn cur kids).isSome = true) := by
  intro N
  induction N using Nat.strong_induction_on with
  | _ N ih =>
    constructor
    · intro n fn hs hok
      rw [analyzeBlock.eq_def]
      split
      · simp
      · split
        · simp
        · have hlt : sizeOf n.children < N :=
            lt_of_lt_of_le (Node.sizeOf_children_lt n) hs
          exact (ih (sizeOf n.children) hlt).2 n.children fn _ le_rfl
            (loopBodiesOk_children hok)
    · intro kids fn cur hs hok
      cases kids with
      | nil => rw [analyzeChildren_nil]; rfl
      | cons c rest =>
        have hokc : loopBodiesOk c = true := loopBodiesOk_of_mem hok (by simp)
        have hokr : loopBodiesOkList rest = true := by
          rw [loopBodiesOkList] at hok
          exact (Bool.and_eq_true_iff.mp hok).2
        have hcs : sizeOf c < N := by
          simp only [List.cons.sizeOf_spec] at hs; omega
        have hrs : sizeOf rest < N := by
          simp only [List.cons.sizeOf_spec] at hs; omega
        rw [analyzeChildren.eq_def]
        cases hli : isLoop c with
        | true =>
          simp only [hli, if_true]
          obtain ⟨b, hb⟩ := loopBodiesOk_body hokc hli
          split
          · rename_i hnone
            rw [hb] at hnone
            cases hnone
          · rename_i b' hb'
            rw [hb] at hb'
            cases hb'
            have hbmem := Node.mem_of_childForFieldName hb
            have hbok : loopBodiesOk b = true :=
              loopBodiesOk_of_mem (loopBodiesOk_children hokc) hbmem
            have hbsize : sizeOf b < N := by
              have h1 := List.sizeOf_lt_of_mem hbmem
              have h2 := Node.sizeOf_children_lt c
              omega
            have hbt := (ih (sizeOf b) hbsize).1 b fn le_rfl hbok
            obtain ⟨br, hbr⟩ := Option.isSome_iff_exists.mp hbt
            rw [hbr]
            exact (ih (sizeOf rest) hrs).2 rest fn _ le_rfl hokr
        | false =>
          simp only [hli, Bool.false_eq_true, if_false]
          cases hnc : (c.typ == "compound_statement" || c.typ == "if_statement") with
          | true =>
            simp only [hnc, if_true]
            have hct := (ih (sizeOf c) hcs).1 c fn le_rfl hokc
            obtain ⟨nr, hnr⟩ := Option.isSome_iff_exists.mp hct
            rw [hnr]
            exact (ih (sizeOf rest) hrs).2 rest fn _ le_rfl hokr
          | false =>
            simp only [hnc, Bool.false_eq_true, if_false]
            exact (ih (sizeOf rest) hrs).2 rest fn _ le_rfl hokr

/-! ### Claims -/

/-- C1, counterexample.  Fingerprint matching is NOT advisory: on `c1Tree`,
whose signature matches the binary-search fingerprint, `analyzeBlock` returns
the fingerprint's `O(log N)` immediately even though the sibling nested-loop
child would contribute `O(N^2)`, which is strictly greater under
`compareComplexity` (third conjunct). -/
theorem fingerprint_not_a_floor :
    analyzeBlock c1Tree "main" =
      some ⟨"O(log N)", "Matches pattern: Binary Search Logic"⟩ ∧
    analyzeBlock c1Mid "main" = some ⟨"O(N)", "Loop (O(N)) wrapping: O(1)"⟩ ∧
    0 < compareComplexity (multiplyComplexity "O(N)" "O(N)") "O(log N)" := by
  have hm : registryMatch (getStructureSignature c1Tree) = some binarySearchFingerprint := by
    decide
  refine ⟨(analyzeBlock_of_match "main" hm).trans (by decide), ?_, by decide⟩
  have hIn : analyzeBlock c1Inner "main" = some ⟨"O(1)", "Constant time operations"⟩ :=
    analyzeBlock_constantLeaf "main" (by decide) (by decide) (by decide)
  have hMid := analyzeBlock_bracedFor (by decide) (by decide) hIn
  rw [show c1Mid = bracedFor c1Inner from rfl, hMid]
  decide

/-- C1, amended.  For every body node whose canonical signature matches a
registry rule, `analyzeBlock` returns the fingerprint's cost and pattern name
immediately, without walking the node's children: the match is decisive, not
a floor seeded into the running maximum. -/
theorem fingerprint_match_short_circuits (node : Node) (fn : String)
    (algo : AlgorithmFingerprint)
    (h : registryMatch (getStructureSignature node) = some algo) :
    analyzeBlock node fn =
      some ⟨algo.complexity, "Matches pattern: " ++ algo.name⟩ :=
  analyzeBlock_of_match fn h

/-- Witness for `fingerprint_match_short_circuits` at the concrete
binary-search-shaped block. -/
theorem fingerprint_match_short_circuits_witness :
    registryMatch (getStructureSignature binWhileBlock) =
      some binarySearchFingerprint ∧
    analyzeBlock binWhileBlock "f" =
      some ⟨"O(log N)", "Matches pattern: Binary Search Logic"⟩ :=
  ⟨by decide,
    (fingerprint_match_short_circuits binWhileBlock "f" binarySearchFingerprint
      (by decide)).trans (by decide)⟩

/-- C2, counterexample.  The Block Analyzer does NOT run the Recursion
Classifier first: on `c2Tree` the classifier returns the label `O(N)`, yet
`analyzeBlock` returns the fingerprint result, because fingerprint matching
is checked before recursion. -/
theorem fingerprint_preempts_recursion :
    registryMatch (getStructureSignature c2Tree) = some binarySearchFingerprint ∧
    analyzeRecursion c2Tree "f" = some "O(N)" ∧
    analyzeBlock c2Tree "f" =
      some ⟨"O(log N)", "Matches pattern: Binary Search Logic"⟩ ∧
    analyzeBlock c2Tree "f" ≠
      some ⟨"Recursive (O(N))", "Recursive calls detected (O(N))"⟩ := by
  have hm : registryMatch (getStructureSignature c2Tree) = some binarySearchFingerprint := by
    decide
  have h3 : analyzeBlock c2Tree "f" =
      some ⟨"O(log N)", "Matches pattern: Binary Search Logic"⟩ :=
    (analyzeBlock_of_match "f" hm).trans (by decide)
  exact ⟨by decide, by decide, h3, by rw [h3]; decide⟩

/-- C2, amended.  The fingerprint matcher runs first; when it does not match,
a recursion label short-circuits the analysis and returns that complexity
with the recursive-calls reason, taking precedence over compositional child
analysis. -/
theorem recursion_short_circuits_after_fingerprint (node : Node) (fn rc : String)
    (h1 : registryMatch (getStructureSignature node) = none)
    (h2 : analyzeRecursion node fn = some rc) :
    analyzeBlock node fn =
      some ⟨"Recursive (" ++ rc ++ ")", "Recursive calls detected (" ++ rc ++ ")"⟩ :=
  analyzeBlock_of_recursion h1 h2

/-- Witness for `recursion_short_circuits_after_fingerprint` at a body with a
single self-call `f(n - 1)`. -/
theorem recursion_short_circuits_after_fingerprint_witness :
    registryMatch (getStructureSignature oneCallSub) = none ∧
    analyzeRecursion oneCallSub "f" = some "O(N)" ∧
    analyzeBlock oneCallSub "f" =
      some ⟨"Recursive (O(N))", "Recursive calls detected (O(N))"⟩ :=
  ⟨by decide, by decide,
    (recursion_short_circuits_after_fingerprint oneCallSub "f" "O(N)"
      (by decide) (by decide)).trans (by decide)⟩

/-- C3.  `analyzeRecursion` follows the decision table in priority order:
no self-call yields no classification; two or more self-calls yield `O(2^N)`
regardless of the marker flags; exactly one self-call with the division flag
yields `O(log N)`; exactly one with only the subtraction flag yields `O(N)`;
exactly one with neither flag yields `O(N)`. -/
theorem recursion_decision_table (b : Node) (fn : String) :
    ((recScanNode fn ⟨0, false, false⟩ b).callCount = 0 →
      analyzeRecursion b fn = none) ∧
    (2 ≤ (recScanNode fn ⟨0, false, false⟩ b).callCount →
      analyzeRecursion b fn = some "O(2^N)") ∧
    ((recScanNode fn ⟨0, false, false⟩ b).callCount = 1 →
      (recScanNode fn ⟨0, false, false⟩ b).hasDivision = true →
      analyzeRecursion b fn = some "O(log N)") ∧
    ((recScanNode fn ⟨0, false, false⟩ b).callCount = 1 →
      (recScanNode fn ⟨0, false, false⟩ b).hasDivision = false →
      (recScanNode fn ⟨0, false, false⟩ b).hasSubtraction = true →
      analyzeRecursion b fn = some "O(N)") ∧
    ((recScanNode fn ⟨0, false, false⟩ b).callCount = 1 →
      (recScanNode fn ⟨0, false, false⟩ b).hasDivision = false →
      (recScanNode fn ⟨0, false, false⟩ b).hasSubtraction = false →
      analyzeRecursion b fn = some "O(N)") := by
  unfold analyzeRecursion
  refine ⟨fun h0 => ?_, fun h2 => ?_, fun h1 hd => ?_, fun h1 hd hs => ?_,
    fun h1 hd hs => ?_⟩ <;> (simp_all; try omega)

/-- Witness for `recursion_decision_table`: one self-call `f(n / 2)` lands in
the division row. -/
theorem recursion_decision_table_witness :
    (recScanNode "f" ⟨0, false, false⟩ oneCallDiv).callCount = 1 ∧
    (recScanNode "f" ⟨0, false, false⟩ oneCallDiv).hasDivision = true ∧
    analyzeRecursion oneCallDiv "f" = some "O(log N)" :=
  ⟨by decide, by decide,
    (recursion_decision_table oneCallDiv "f").2.2.1 (by decide) (by decide)⟩

/-- C4.  Evaluation at the failing input: a loop whose body only calls the
unrecognized `doWork(x)` analyzes to `O(N)`, but there is no estimate flag in
the result record and the reason is the generic loop message, never naming
the unresolved callee — the confidence system the README documents is not
implemented. -/
theorem unknown_call_not_flagged :
    analyzeBlock c4Tree "main" = some ⟨"O(N)", "Loop (O(N)) wrapping: O(1)"⟩ ∧
    jsIncludes "Loop (O(N)) wrapping: O(1)" "doWork" = false := by
  have hB : analyzeBlock c4Body "main" = some ⟨"O(1)", "Constant time operations"⟩ :=
    analyzeBlock_constantLeaf "main" (by decide) (by decide) (by decide)
  have h := analyzeBlock_bracedFor (by decide) (by decide) hB
  exact ⟨by rw [show c4Tree = bracedFor c4Body from rfl, h]; decide, by decide⟩

/-- Actual behavior at unrecognized calls: plain expression statements —
including calls to unrecognized user functions — are skipped entirely by the
child walk (no cost, no estimate flag, no reason naming the callee), and a
loop whose body contains only such a call analyzes to `O(N)` with the generic
`Loop (O(N)) wrapping: O(1)` reason; analysis is never blocked by them. -/
theorem unknown_call_skipped :
    (∀ (fn : String) (cur : AnalysisResult) (c : Node) (rest : List Node),
      c.typ = "expression_statement" →
      analyzeChildren fn cur (c :: rest) = analyzeChildren fn cur rest) ∧
    analyzeBlock c4Tree "main" = some ⟨"O(N)", "Loop (O(N)) wrapping: O(1)"⟩ := by
  constructor
  · intro fn cur c rest h
    exact analyzeChildren_skip fn cur c rest (by simp [isLoop, h]) (by simp [h])
      (by simp [h])
  · have hB : analyzeBlock c4Body "main" =
        some ⟨"O(1)", "Constant time operations"⟩ :=
      analyzeBlock_constantLeaf "main" (by decide) (by decide) (by decide)
    have h := analyzeBlock_bracedFor (by decide) (by decide) hB
    rw [show c4Tree = bracedFor c4Body from rfl, h]
    decide

/-- Witness for `unknown_call_skipped` at the concrete `doWork(x);`
statement. -/
theorem unknown_call_skipped_witness :
    analyzeChildren "g" ⟨"O(1)", "Constant time operations"⟩
        [exprStmt "doWork(x);"] =
      analyzeChildren "g" ⟨"O(1)", "Constant time operations"⟩ [] :=
  unknown_call_skipped.1 "g" ⟨"O(1)", "Constant time operations"⟩
    (exprStmt "doWork(x);") [] rfl

/-- C5.  Evaluation at the failing input: the statement calling `sort(...)`
is not assigned `O(N log N)` — the loop body consisting of that single call
analyzes to the plain `O(1)` default and the surrounding loop to `O(N)`,
although the README's cost table documents `std::sort` as `O(N log N)`. -/
theorem sort_call_no_cost :
    analyzeBlock c5Body "main" = some ⟨"O(1)", "Constant time operations"⟩ ∧
    analyzeBlock c5Tree "main" = some ⟨"O(N)", "Loop (O(N)) wrapping: O(1)"⟩ := by
  have hB : analyzeBlock c5Body "main" = some ⟨"O(1)", "Constant time operations"⟩ :=
    analyzeBlock_constantLeaf "main" (by decide) (by decide) (by decide)
  have h := analyzeBlock_bracedFor (by decide) (by decide) hB
  exact ⟨hB, by rw [show c5Tree = bracedFor c5Body from rfl, h]; decide⟩

/-- Actual behavior at library calls: there is no call-cost classification —
a `sort(...)` statement is skipped by the child walk like any expression
statement, and a loop whose body consists of the `sort(...)` call analyzes to
`O(N)` (the body contributes `O(1)`), not to an `O(N log N)`-bearing
product. -/
theorem sort_call_contributes_nothing :
    (∀ (fn : String) (cur : AnalysisResult) (rest : List Node),
      analyzeChildren fn cur (callStmt "sort" "(v.begin(), v.end())" :: rest) =
        analyzeChildren fn cur rest) ∧
    analyzeBlock c5Tree "main" = some ⟨"O(N)", "Loop (O(N)) wrapping: O(1)"⟩ := by
  constructor
  · intro fn cur rest
    exact analyzeChildren_skip fn cur _ rest rfl rfl rfl
  · have hB : analyzeBlock c5Body "main" =
        some ⟨"O(1)", "Constant time operations"⟩ :=
      analyzeBlock_constantLeaf "main" (by decide) (by decide) (by decide)
    have h := analyzeBlock_bracedFor (by decide) (by decide) hB
    rw [show c5Tree = bracedFor c5Body from rfl, h]
    decide

/-- C6, counterexample.  `multiplyComplexity` is not commutative on
non-exponential operands: the outer operand's degree is discarded unless the
inner operand is `O(1)`. -/
theorem multiply_not_commutative :
    multiplyComplexity "O(N^2)" "O(N)" = "O(N^2)" ∧
    multiplyComplexity "O(N)" "O(N^2)" = "O(N^3)" ∧
    multiplyComplexity "O(N^2)" "O(N)" ≠ multiplyComplexity "O(N)" "O(N^2)" := by
  decide

/-- C6, amended.  `O(1)` is a two-sided identity of `multiplyComplexity` for
every complexity string, but commutativity fails for non-exponential
operands: `multiplyComplexity` keys only on the inner operand's shape. -/
theorem multiply_identity :
    (∀ a : String, multiplyComplexity a "O(1)" = a) ∧
    (∀ a : String, multiplyComplexity "O(1)" a = a) ∧
    multiplyComplexity "O(N^2)" "O(N)" ≠ multiplyComplexity "O(N)" "O(N^2)" := by
  refine ⟨fun a => by simp [multiplyComplexity], fun a => ?_, by decide⟩
  by_cases h : a = "O(1)"
  · subst h; decide
  · have hb : (a == "O(1)") = false := by simp [h]
    simp [multiplyComplexity, hb]

/-- C7.  `compareComplexity` is antisymmetric and reflexive: it is the
difference of the two scores, so `compare(a,b) = -compare(b,a)` and
`compare(a,a) = 0` for all complexity strings. -/
theorem compare_antisymm_refl :
    (∀ a b : String, compareComplexity a b = -compareComplexity b a) ∧
    (∀ a : String, compareComplexity a a = 0) :=
  ⟨fun a b => by unfold compareComplexity; omega,
   fun a => by unfold compareComplexity; omega⟩

/-- C8.  Two nested `for` loops (braced bodies) around an inner body that
analyzes to `O(1)`, with no fingerprint match and no self-calls at either
level, analyze to `O(N^2)` with the reason `Loop (O(N)) wrapping: O(N)`. -/
theorem nested_loops_quadratic (ib : Node) (fn r : String)
    (h1 : registryMatch (getStructureSignature (bracedFor (bracedFor ib))) = none)
    (h2 : analyzeRecursion (bracedFor (bracedFor ib)) fn = none)
    (h3 : registryMatch (getStructureSignature (bracedFor ib)) = none)
    (h4 : analyzeRecursion (bracedFor ib) fn = none)
    (h5 : analyzeBlock ib fn = some ⟨"O(1)", r⟩) :
    analyzeBlock (bracedFor (bracedFor ib)) fn =
      some ⟨"O(N^2)", "Loop (O(N)) wrapping: O(N)"⟩ := by
  have hMid : analyzeBlock (bracedFor ib) fn =
      some ⟨"O(N)", "Loop (O(N)) wrapping: O(1)"⟩ :=
    (analyzeBlock_bracedFor h3 h4 h5).trans (by simp [mul_N_1, cmp_N_1])
  exact (analyzeBlock_bracedFor h1 h2 hMid).trans (by decide)

/-- Witness for `nested_loops_quadratic` at a concrete `{ count += 1; }`
inner body. -/
theorem nested_loops_quadratic_witness :
    analyzeBlock (bracedFor (bracedFor c8Inner)) "main" =
      some ⟨"O(N^2)", "Loop (O(N)) wrapping: O(N)"⟩ :=
  nested_loops_quadratic c8Inner "main" "Constant time operations"
    (by decide) (by decide) (by decide) (by decide)
    (analyzeBlock_constantLeaf "main" (by decide) (by decide) (by decide))

/-- C9, counterexample.  The analyzer is not error-free on every input tree:
on a body whose loop child has no `body` field, the JavaScript code
dereferences `null` (modelled by `none`). -/
theorem loop_without_body_crashes : analyzeBlock c9Tree "f" = none := by
  rw [analyzeBlock_of_children (by decide) (by decide)]
  rw [show c9Tree.children = [openBrace, bodylessWhile, closeBrace] from rfl]
  rw [analyzeChildren_skip "f" _ openBrace _ rfl rfl rfl]
  exact analyzeChildren_loop_noBody "f" _ bodylessWhile _ rfl rfl

/-- C9, amended.  A body with no children (and no fingerprint match or
self-calls) returns the `O(1)` constant-time default, and the analysis
returns a result on every tree in which each loop node carries a `body`
field; only a loop child lacking that field makes it error. -/
theorem empty_body_default_and_guarded_totality :
    (∀ (node : Node) (fn : String), node.children = [] →
      registryMatch (getStructureSignature node) = none →
      analyzeRecursion node fn = none →
      analyzeBlock node fn = some ⟨"O(1)", "Constant time operations"⟩) ∧
    (∀ (node : Node) (fn : String), loopBodiesOk node = true →
      (analyzeBlock node fn).isSome = true) := by
  constructor
  · intro node fn hc h1 h2
    rw [analyzeBlock_of_children h1 h2, hc, analyzeChildren_nil]
  · intro node fn hok
    exact (analyzer_total (sizeOf node)).1 node fn le_rfl hok

/-- Witness for `empty_body_default_and_guarded_totality`: the empty body
returns the default, and the well-formed nested-loop tree `c1Mid` returns a
result. -/
theorem empty_body_default_and_guarded_totality_witness :
    analyzeBlock emptyBody "f" = some ⟨"O(1)", "Constant time operations"⟩ ∧
    (analyzeBlock c1Mid "f").isSome = true :=
  ⟨empty_body_default_and_guarded_totality.1 emptyBody "f" rfl (by decide)
    (by decide),
   empty_body_default_and_guarded_totality.2 c1Mid "f" (by decide)⟩

/-- C10, counterexample.  It is not true that every degree `k ≥ 4` scores
like plain `O(N)`: at `k = 20` the digits of the exponent contain the `N^2`
marker, so `O(N^20)` scores `30`, twenty above `O(N)` and tied with
`O(N^2)`. -/
theorem high_degree_score_collision :
    compareComplexity "O(N^20)" "O(N)" = 20 ∧
    compareComplexity "O(N^20)" "O(N^2)" = 0 := by decide

/-- C10, amended.  The score recognizes only the literal marker substrings,
so for `4 ≤ k ≤ 19` the string `O(N^k)` scores exactly like plain `O(N)`
(for larger `k` the exponent's own digits may contain `N^2` or `N^3`);
in particular `compare(O(N^4), O(N^2)) < 0`, and a branch of four nested
loops is ranked strictly below a sibling two-loop `O(N^2)` branch, which
wins the worst-branch selection. -/
theorem score_collision_bounded :
    (∀ k : Nat, 4 ≤ k → k ≤ 19 →
      compareComplexity ("O(N^" ++ toString k ++ ")") "O(N)" = 0) ∧
    compareComplexity "O(N^4)" "O(N^2)" < 0 ∧
    analyzeBlock c10Tree "main" = some ⟨"O(N^2)", "Loop (O(N)) wrapping: O(N)"⟩ := by
  refine ⟨fun k h4 h19 => ?_, by decide, ?_⟩
  · interval_cases k <;> decide
  · have hLeaf : analyzeBlock c10Leaf "main" =
        some ⟨"O(1)", "Constant time operations"⟩ :=
      analyzeBlock_constantLeaf "main" (by decide) (by decide) (by decide)
    have h1 : analyzeBlock (bracedFor c10Leaf) "main" =
        some ⟨"O(N)", "Loop (O(N)) wrapping: O(1)"⟩ :=
      (analyzeBlock_bracedFor (by decide) (by decide) hLeaf).trans (by decide)
    have h2 : analyzeBlock (bracedFor (bracedFor c10Leaf)) "main" =
        some ⟨"O(N^2)", "Loop (O(N)) wrapping: O(N)"⟩ :=
      (analyzeBlock_bracedFor (by decide) (by decide) h1).trans (by decide)
    have h3 : analyzeBlock c10DeepBody "main" =
        some ⟨"O(N^3)", "Loop (O(N)) wrapping: O(N^2)"⟩ :=
      (analyzeBlock_bracedFor (by decide) (by decide) h2).trans (by decide)
    rw [analyzeBlock_of_children (by decide) (by decide)]
    rw [show c10Tree.children =
      [openBrace, forStmt c10DeepBody, forStmt c10ShallowBody, closeBrace] from rfl]
    rw [analyzeChildren_skip "main" _ openBrace _ rfl rfl rfl]
    rw [analyzeChildren_loop "main" _ (forStmt c10DeepBody) _ rfl rfl h3]
    rw [analyzeChildren_loop "main" _ (forStmt c10ShallowBody) _ rfl rfl
      (show analyzeBlock c10ShallowBody "main" =
        some ⟨"O(N)", "Loop (O(N)) wrapping: O(1)"⟩ from h1)]
    rw [analyzeChildren_skip "main" _ closeBrace _ rfl rfl rfl]
    rw [analyzeChildren_nil]
    decide

/-- Witness for `score_collision_bounded` at `k = 7`. -/
theorem score_collision_bounded_witness :
    compareComplexity "O(N^7)" "O(N)" = 0 :=
  score_collision_bounded.1 7 (by norm_num) (by norm_num)

end Asymptote
